import Mathlib

/-!
Verification of the yfinance-trader MCP server (src/main.py) against its
natural-language specification.

The Python module is shallowly embedded: every external effect (the
yfinance provider and the pandas_ta indicator library) is an explicit
environment of functions returning `Except Unit _`, where `.error ()`
models a raised Python exception and `.ok _` a normal return.  Dictionary
values are modelled by the inductive `Value`; a tool response is a
`Dict := List (String × Value)` in insertion order, matching a Python dict.
Numeric samples carried by series are modelled by `Int` stand-ins (the
adapter code performs no arithmetic on them); a NaN cell is `Option.none`.
-/

/-- JSON-like runtime values, modelling the Python values the adapters
move around.  `vNull` models Python `None` (and a NaN cell rendered into
a response); `vInt` stands in for any numeric value. -/
inductive Value where
  | vNull : Value
  | vStr : String → Value
  | vInt : Int → Value
  | vList : List Value → Value
  | vObj : List (String × Value) → Value

open Value

/-- A Python dict in insertion order. -/
abbrev Dict := List (String × Value)

/-- Identity test against Python `None` (`v is None`). -/
def Value.isNull : Value → Bool
  | vNull => true
  | _ => false

/-- Python truthiness of a value (`if v:`): `None`, `0`, an empty string
and empty containers are falsy. -/
def Value.truthy : Value → Bool
  | vNull => false
  | vStr s => !s.isEmpty
  | vInt n => n != 0
  | vList xs => !xs.isEmpty
  | vObj fs => !fs.isEmpty

/-- Python `d.get(key, dflt)`: the stored value when the key is present
(even when that value is `None`), else the default. -/
def pyGetD (d : Dict) (k : String) (dflt : Value) : Value :=
  (d.lookup k).getD dflt

/-- Python `d.get(key)` (default `None`). -/
def pyGetNone (d : Dict) (k : String) : Value :=
  (d.lookup k).getD vNull

/-- Python `int(v)` on the values arising here: numeric values convert,
anything else raises.  (String parsing is not modelled; the adapters only
coerce numeric provider columns.) -/
def pyInt : Value → Except Unit Int
  | vInt n => .ok n
  | _ => .error ()

/-- Python `float(v)` on the values arising here: numeric values convert
(the `Int` stand-in is kept), anything else raises. -/
def pyFloat : Value → Except Unit Value
  | vInt n => .ok (vInt n)
  | _ => .error ()

/-- Models Python `s.endswith(t)`: `t` is a suffix of `s`. -/
def strEndsWith (s t : String) : Bool :=
  t.data.isSuffixOf s.data

/-- Models Python `keywords.split()`: split on runs of whitespace,
dropping empty pieces.  `cur` accumulates the current word reversed. -/
def splitWsAux : List Char → List Char → List String
  | [], cur => if cur.isEmpty then [] else [String.mk cur.reverse]
  | c :: cs, cur =>
    if c.isWhitespace then
      if cur.isEmpty then splitWsAux cs [] else String.mk cur.reverse :: splitWsAux cs []
    else splitWsAux cs (c :: cur)

/-- Python `s.split()` with no separator argument. -/
def pySplit (s : String) : List String := splitWsAux s.data []

/-- The metadata side of the provider: `yf.Ticker(sym).info`.  `.error ()`
models the attribute access raising. -/
abbrev InfoFun := String → Except Unit Dict

/-- src/main.py line 10: `INDIAN_SUFFIXES = ['.NS', '.BO']`. -/
def INDIAN_SUFFIXES : List String := [".NS", ".BO"]

/-- One probe of `resolve_indian_symbol` (src/main.py lines 17-23 and
25-32): fetch the metadata of a candidate inside `try/except`; the probe
hits when the lookup returns normally and
`info.get('regularMarketPrice') is not None`;
any exception makes the probe miss (`except Exception: pass`). -/
def probeHit (info : InfoFun) (t : String) : Bool :=
  match info t with
  | .ok i => !(pyGetNone i "regularMarketPrice").isNull
  | .error _ => false

/-- src/main.py lines 11-34, `resolve_indian_symbol`, instrumented with the
list of candidate symbols whose metadata was actually looked up (the probe
log), so that "no external calls made" is a provable statement. -/
def resolveRun (info : InfoFun) (symbol : String) : String × List String :=
  if INDIAN_SUFFIXES.any (fun sfx => strEndsWith symbol sfx) then
    (symbol, [])
  else
    let t1 := symbol ++ ".NS"
    if probeHit info t1 then (t1, [t1])
    else
      let t2 := symbol ++ ".BO"
      if probeHit info t2 then (t2, [t1, t2])
      else (symbol, [t1, t2])

/-- src/main.py lines 11-34: the resolved symbol. -/
def resolve_indian_symbol (info : InfoFun) (symbol : String) : String :=
  (resolveRun info symbol).1

/-- Spec wording, 4.1: a trial candidate applies when the metadata lookup
succeeds and the result contains a present, non-null real-time market
price field. -/
def candidateApplies (info : InfoFun) (t : String) : Prop :=
  ∃ i, info t = .ok i ∧
    ∃ v, i.lookup "regularMarketPrice" = some v ∧ v.isNull = false

instance (info : InfoFun) (t : String) : Decidable (candidateApplies info t) :=
  decidable_of_iff (probeHit info t = true) (by
    unfold probeHit candidateApplies
    cases info t with
    | ok i =>
        cases h : i.lookup "regularMarketPrice" with
        | none => simp [pyGetNone, h, Value.isNull]
        | some v => cases v <;> simp [pyGetNone, h, Value.isNull]
    | error e => simp)

/-- A numeric cell of a provider column; `none` models NaN. -/
abbrev Cell := Option Int

/-- A pandas Series of numeric samples. -/
abbrev Series := List Cell

/-- A pandas DataFrame as a column map. -/
abbrev DataFrame := List (String × Series)

/-- A cell rendered into a response value (NaN renders as null). -/
def cellValue : Cell → Value
  | some n => vInt n
  | none => vNull

/-- `series.dropna().tolist()`. -/
def dropnaToList (s : Series) : Value :=
  vList ((s.filterMap id).map vInt)

/-- `df[k].dropna().tolist() if k in df else []` — the guarded column
access used for the stoch, macd, bbands and supertrend outputs. -/
def dfCol (df : DataFrame) (k : String) : Value :=
  match df.lookup k with
  | some s => dropnaToList s
  | none => vList []

/-- Unguarded `df[k]`: raises KeyError when the column is absent (used for
the adx output). -/
def dfColE (df : DataFrame) (k : String) : Except Unit Series :=
  match df.lookup k with
  | some s => .ok s
  | none => .error ()

/-- One row of `stock.history(period=...)`: the index date already
rendered to its ISO string, plus the OHLCV cells. -/
structure HRow where
  date : String
  «open» : Cell
  high : Cell
  low : Cell
  close : Cell
  volume : Cell
deriving DecidableEq

/-- One row of a recommendations or insider DataFrame: the index rendered
to a string (`index.isoformat()` when available, else `str(index)`), and
the row as a label map read with `row.get`. -/
abbrev IRow := String × Dict

/-- The pandas_ta transforms used by get_technical_indicators, as an
explicit environment.  `.error ()` models the whole statement raising
(including the upstream transform returning `None`, which makes the
subsequent attribute or membership access raise). -/
structure TaEnv where
  sma : Nat → Series → Except Unit Series
  ema : Nat → Series → Except Unit Series
  wma : Nat → Series → Except Unit Series
  hma : Nat → Series → Except Unit Series
  rsi : Nat → Series → Except Unit Series
  roc : Nat → Series → Except Unit Series
  willr : Nat → Series → Series → Series → Except Unit Series
  atr : Nat → Series → Series → Series → Except Unit Series
  adx : Nat → Series → Series → Series → Except Unit DataFrame
  cci : Nat → Series → Series → Series → Except Unit Series
  stoch : Series → Series → Series → Except Unit DataFrame
  macd : Series → Except Unit DataFrame
  bbands : Series → Except Unit DataFrame
  obv : Series → Series → Except Unit Series
  cmf : Nat → Series → Series → Series → Series → Except Unit Series
  mfi : Nat → Series → Series → Series → Series → Except Unit Series
  supertrend : Series → Series → Series → Except Unit DataFrame

/-- The full external world of src/main.py: yfinance metadata, history,
recommendations and insider tables (`none` models the attribute being
`None`), the wall clock, and the pandas_ta transforms. -/
structure Env where
  info : InfoFun
  history : String → String → Except Unit (List HRow)
  recommendations : String → Except Unit (Option (List IRow))
  insider : String → Except Unit (Option (List IRow))
  now : String
  ta : TaEnv

/-- src/main.py lines 54-64: the `try` block of get_stock_quote. -/
def get_stock_quote_body (env : Env) (s : String) : Except Unit Dict := do
  let info ← env.info s
  pure [("symbol", vStr s),
        ("price", pyGetD info "regularMarketPrice" (vInt 0)),
        ("change", pyGetD info "regularMarketChange" (vInt 0)),
        ("changePercent", pyGetD info "regularMarketChangePercent" (vInt 0)),
        ("volume", pyGetD info "regularMarketVolume" (vInt 0)),
        ("timestamp", vStr env.now)]

/-- src/main.py lines 43-67, get_stock_quote. -/
def get_stock_quote (env : Env) (symbol : String) : Dict :=
  let s := resolve_indian_symbol env.info symbol
  match get_stock_quote_body env s with
  | .ok d => d
  | .error _ => [("error", vStr ("Failed to fetch quote for " ++ s))]

/-- src/main.py lines 80-93: the `try` block of get_company_overview. -/
def get_company_overview_body (env : Env) (s : String) : Except Unit Dict := do
  let info ← env.info s
  pure [("name", pyGetD info "longName" (vStr "")),
        ("sector", pyGetD info "sector" (vStr "")),
        ("industry", pyGetD info "industry" (vStr "")),
        ("marketCap", pyGetD info "marketCap" (vInt 0)),
        ("peRatio", pyGetD info "trailingPE" (vInt 0)),
        ("forwardPE", pyGetD info "forwardPE" (vInt 0)),
        ("dividendYield", pyGetD info "dividendYield" (vInt 0)),
        ("52WeekHigh", pyGetD info "fiftyTwoWeekHigh" (vInt 0)),
        ("52WeekLow", pyGetD info "fiftyTwoWeekLow" (vInt 0))]

/-- src/main.py lines 69-96, get_company_overview. -/
def get_company_overview (env : Env) (symbol : String) : Dict :=
  let s := resolve_indian_symbol env.info symbol
  match get_company_overview_body env s with
  | .ok d => d
  | .error _ => [("error", vStr ("Failed to fetch company overview for " ++ s))]

/-- One reshaped row of get_time_series_daily. -/
def tsRowValue (r : HRow) : Value :=
  vObj [("date", vStr r.date),
        ("open", cellValue r.«open»),
        ("high", cellValue r.high),
        ("low", cellValue r.low),
        ("close", cellValue r.close),
        ("volume", cellValue r.volume)]

/-- src/main.py lines 110-129: the `try` block of get_time_series_daily,
including the outputsize-to-period mapping. -/
def get_time_series_daily_body (env : Env) (s outputsize : String) :
    Except Unit Dict := do
  let period := if outputsize = "compact" then "3mo" else "max"
  let history ← env.history s period
  pure [("symbol", vStr s),
        ("timeSeriesDaily", vList (history.map tsRowValue))]

/-- src/main.py lines 98-132, get_time_series_daily. -/
def get_time_series_daily (env : Env) (symbol outputsize : String) : Dict :=
  let s := resolve_indian_symbol env.info symbol
  match get_time_series_daily_body env s outputsize with
  | .ok d => d
  | .error _ => [("error", vStr ("Failed to fetch time series for " ++ s))]

/-- src/main.py lines 206-213: one reshaped recommendations row; `int`
coercion on non-numeric values raises inside the `try` block. -/
def recRowReshape (r : IRow) : Except Unit Dict := do
  let sb ← pyInt (pyGetD r.2 "strongBuy" (vInt 0))
  let b ← pyInt (pyGetD r.2 "buy" (vInt 0))
  let hd ← pyInt (pyGetD r.2 "hold" (vInt 0))
  let se ← pyInt (pyGetD r.2 "sell" (vInt 0))
  let ss ← pyInt (pyGetD r.2 "strongSell" (vInt 0))
  pure [("period", pyGetD r.2 "period" (vStr r.1)),
        ("strongBuy", vInt sb),
        ("buy", vInt b),
        ("hold", vInt hd),
        ("sell", vInt se),
        ("strongSell", vInt ss)]

/-- src/main.py lines 193-219: the `try` block of get_recommendations,
with the `is None or ... .empty` early return. -/
def get_recommendations_body (env : Env) (s : String) : Except Unit Dict := do
  let recs ← env.recommendations s
  match recs with
  | none => pure [("symbol", vStr s), ("recommendations", vList [])]
  | some rows =>
    if rows.isEmpty then
      pure [("symbol", vStr s), ("recommendations", vList [])]
    else do
      let rs ← rows.mapM recRowReshape
      pure [("symbol", vStr s), ("recommendations", vList (rs.map vObj))]

/-- src/main.py lines 182-222, get_recommendations. -/
def get_recommendations (env : Env) (symbol : String) : Dict :=
  let s := resolve_indian_symbol env.info symbol
  match get_recommendations_body env s with
  | .ok d => d
  | .error _ => [("error", vStr ("Failed to fetch recommendations for " ++ s))]

/-- src/main.py lines 247-258: one reshaped insider-transaction row. -/
def insiderRowReshape (r : IRow) : Except Unit Dict := do
  let shares ← pyInt (pyGetD r.2 "Shares" (vInt 0))
  let value ← pyFloat (pyGetD r.2 "Value" (vInt 0))
  pure [("date", vStr r.1),
        ("insider", pyGetD r.2 "Insider" (vStr "")),
        ("position", pyGetD r.2 "Position" (vStr "")),
        ("transactionType", pyGetD r.2 "Transaction" (vStr "")),
        ("shares", vInt shares),
        ("value", value),
        ("url", pyGetD r.2 "URL" (vStr "")),
        ("text", pyGetD r.2 "Text" (vStr "")),
        ("startDate", pyGetD r.2 "Start Date" (vStr "")),
        ("ownership", pyGetD r.2 "Ownership" (vStr ""))]

/-- src/main.py lines 235-264: the `try` block of get_insider_transactions. -/
def get_insider_transactions_body (env : Env) (s : String) : Except Unit Dict := do
  let insider ← env.insider s
  match insider with
  | none => pure [("symbol", vStr s), ("transactions", vList [])]
  | some rows =>
    if rows.isEmpty then
      pure [("symbol", vStr s), ("transactions", vList [])]
    else do
      let ts ← rows.mapM insiderRowReshape
      pure [("symbol", vStr s), ("transactions", vList (ts.map vObj))]

/-- src/main.py lines 224-267, get_insider_transactions. -/
def get_insider_transactions (env : Env) (symbol : String) : Dict :=
  let s := resolve_indian_symbol env.info symbol
  match get_insider_transactions_body env s with
  | .ok d => d
  | .error _ => [("error", vStr ("Failed to fetch insider transactions for " ++ s))]

/-- One probe of the search loop (src/main.py lines 150-163 and 166-176):
fetch metadata for a candidate inside `try/except`; on a normal return
whose longName is truthy build the result record; an exception or a falsy
longName yields nothing. -/
def searchProbe (info : InfoFun) (t : String) : Option Dict :=
  match info t with
  | .error _ => none
  | .ok i =>
    if (pyGetNone i "longName").truthy then
      some [("symbol", vStr t),
            ("name", pyGetD i "longName" (vStr "")),
            ("type", pyGetD i "quoteType" (vStr "")),
            ("exchange", pyGetD i "exchange" (vStr ""))]
    else none

/-- The inner suffix loop of search_symbol (the `found` flag with `break`),
instrumented with the candidates probed. -/
def searchSuffixLoop (info : InfoFun) (kw : String) :
    List String → Option Dict × List String
  | [] => (none, [])
  | sfx :: rest =>
    match searchProbe info (kw ++ sfx) with
    | some r => (some r, [kw ++ sfx])
    | none =>
      let tail := searchSuffixLoop info kw rest
      (tail.1, (kw ++ sfx) :: tail.2)

/-- One keyword of search_symbol: the suffix loop, then the global
fallback probe when nothing was found. -/
def searchKeywordRun (info : InfoFun) (kw : String) : Option Dict × List String :=
  match searchSuffixLoop info kw INDIAN_SUFFIXES with
  | (some r, log) => (some r, log)
  | (none, log) => (searchProbe info kw, log ++ [kw])

/-- One iteration of the outer keyword loop, threading the results list
and the probe log. -/
def searchStep (info : InfoFun) (acc : List Dict × List String) (kw : String) :
    List Dict × List String :=
  match searchKeywordRun info kw with
  | (some r, log) => (acc.1 ++ [r], acc.2 ++ log)
  | (none, log) => (acc.1, acc.2 ++ log)

/-- src/main.py lines 134-180, search_symbol, instrumented with the probe
log.  The outer `try/except` cannot fire: everything that can raise sits
inside the per-candidate `try` blocks, so the loop result is returned
directly. -/
def searchRun (info : InfoFun) (keywords : String) : Dict × List String :=
  let acc := (pySplit keywords).foldl (searchStep info) ([], [])
  ([("results", vList (acc.1.map vObj))], acc.2)

/-- The search_symbol response. -/
def search_symbol (info : InfoFun) (keywords : String) : Dict :=
  (searchRun info keywords).1

/-- Spec wording, search: the record for one keyword — the first regional
variant (".NS" then ".BO") whose metadata yields a resolvable company
name, else the bare keyword when it resolves globally, else nothing. -/
def specKeywordRecord (info : InfoFun) (kw : String) : Option Dict :=
  match searchProbe info (kw ++ ".NS") with
  | some r => some r
  | none =>
    match searchProbe info (kw ++ ".BO") with
    | some r => some r
    | none => searchProbe info kw

/-- Spec wording, search: the candidates probed for one keyword — ".NS"
always; ".BO" only when ".NS" did not resolve; the bare keyword only when
neither regional variant resolved. -/
def specKeywordProbes (info : InfoFun) (kw : String) : List String :=
  if (searchProbe info (kw ++ ".NS")).isSome then [kw ++ ".NS"]
  else if (searchProbe info (kw ++ ".BO")).isSome then
    [kw ++ ".NS", kw ++ ".BO"]
  else [kw ++ ".NS", kw ++ ".BO", kw]

/-- src/main.py lines 287-289: the default indicator set. -/
def default_indicators : List String :=
  ["sma", "ema", "wma", "hma", "rsi", "stoch", "macd", "bbands", "adx", "atr",
   "cci", "roc", "willr", "obv", "cmf", "mfi", "supertrend"]

/-- src/main.py lines 299-351: the sequence of guarded indicator blocks of
get_technical_indicators, in source order, as (name, computation) pairs.
Each computation is the right-hand side of the block: it may raise
(`.error ()`), and on success yields the response entries it appends. -/
def indicatorSteps (ta : TaEnv) (close high low volume : Series) :
    List (String × Except Unit Dict) :=
  [("sma", (ta.sma 20 close).map fun s => [("sma_20", dropnaToList s)]),
   ("ema", (ta.ema 20 close).map fun s => [("ema_20", dropnaToList s)]),
   ("wma", (ta.wma 20 close).map fun s => [("wma_20", dropnaToList s)]),
   ("hma", (ta.hma 20 close).map fun s => [("hma_20", dropnaToList s)]),
   ("rsi", (ta.rsi 14 close).map fun s => [("rsi_14", dropnaToList s)]),
   ("stoch", (ta.stoch high low close).map fun df =>
      [("stoch_k", dfCol df "STOCHk_14_3_3"),
       ("stoch_d", dfCol df "STOCHd_14_3_3")]),
   ("macd", (ta.macd close).map fun df =>
      [("macd", dfCol df "MACD_12_26_9"),
       ("macd_signal", dfCol df "MACDs_12_26_9"),
       ("macd_hist", dfCol df "MACDh_12_26_9")]),
   ("roc", (ta.roc 10 close).map fun s => [("roc_10", dropnaToList s)]),
   ("willr", (ta.willr 14 high low close).map fun s =>
      [("willr_14", dropnaToList s)]),
   ("bbands", (ta.bbands close).map fun df =>
      [("bbands_upper", dfCol df "BBU_20_2.0"),
       ("bbands_middle", dfCol df "BBM_20_2.0"),
       ("bbands_lower", dfCol df "BBL_20_2.0")]),
   ("atr", (ta.atr 14 high low close).map fun s => [("atr_14", dropnaToList s)]),
   ("adx", (ta.adx 14 high low close).bind fun df =>
      (dfColE df "ADX_14").map fun s => [("adx_14", dropnaToList s)]),
   ("obv", (ta.obv close volume).map fun s => [("obv", dropnaToList s)]),
   ("cmf", (ta.cmf 20 high low close volume).map fun s =>
      [("cmf_20", dropnaToList s)]),
   ("mfi", (ta.mfi 14 high low close volume).map fun s =>
      [("mfi_14", dropnaToList s)]),
   ("supertrend", (ta.supertrend high low close).map fun df =>
      [("supertrend", dfCol df "SUPERT_7_3.0")]),
   ("cci", (ta.cci 20 high low close).map fun s => [("cci_20", dropnaToList s)])]

/-- Runs the guarded blocks in order: a block whose name is not in the
selected indicator list is skipped; a block that raises aborts the whole
call (there is no surrounding `try/except` in the source); a block that
returns appends its entries to the result dict. -/
def runSteps (ind : List String) :
    List (String × Except Unit Dict) → Dict → Except Unit Dict
  | [], acc => .ok acc
  | (name, comp) :: rest, acc =>
    if ind.contains name then
      match comp with
      | .ok entries => runSteps ind rest (acc ++ entries)
      | .error e => .error e
    else runSteps ind rest acc

/-- src/main.py lines 269-352, get_technical_indicators.  Note the source
has no `try/except`: the return type `Except Unit Dict` records that a
raised exception propagates to the transport layer (`.error ()`), while
`.ok` carries the returned dict. -/
def get_technical_indicators (env : Env) (symbol period : String)
    (indicators : Option (List String)) : Except Unit Dict :=
  let s := resolve_indian_symbol env.info symbol
  match env.history s period with
  | .error e => .error e
  | .ok history =>
    if history.isEmpty then
      .ok [("error", vStr ("No historical data for " ++ s))]
    else
      let ind := match indicators with
        | none => default_indicators
        | some l => l
      runSteps ind
        (indicatorSteps env.ta (history.map (·.close)) (history.map (·.high))
          (history.map (·.low)) (history.map (·.volume))) []

/-- A pandas_ta environment in which every transform raises. -/
def taAllErr : TaEnv where
  sma := fun _ _ => .error ()
  ema := fun _ _ => .error ()
  wma := fun _ _ => .error ()
  hma := fun _ _ => .error ()
  rsi := fun _ _ => .error ()
  roc := fun _ _ => .error ()
  willr := fun _ _ _ _ => .error ()
  atr := fun _ _ _ _ => .error ()
  adx := fun _ _ _ _ => .error ()
  cci := fun _ _ _ _ => .error ()
  stoch := fun _ _ _ => .error ()
  macd := fun _ => .error ()
  bbands := fun _ => .error ()
  obv := fun _ _ => .error ()
  cmf := fun _ _ _ _ _ => .error ()
  mfi := fun _ _ _ _ _ => .error ()
  supertrend := fun _ _ _ => .error ()

/-- A provider in which every external call raises. -/
def envAllErr : Env where
  info := fun _ => .error ()
  history := fun _ _ => .error ()
  recommendations := fun _ => .error ()
  insider := fun _ => .error ()
  now := "2024-01-02T00:00:00"
  ta := taAllErr

/-- One concrete history row. -/
def sampleRow : HRow where
  date := "2024-01-02T00:00:00"
  «open» := some 1
  high := some 2
  low := some 1
  close := some 2
  volume := some 100

/-- A provider with one history row and everything else raising. -/
def envHistOnly : Env :=
  { envAllErr with history := fun _ _ => .ok [sampleRow] }

/-- History present, and `ta.adx` returns an empty frame, so the column
"ADX_14" is absent from its result. -/
def envAdxMissing : Env :=
  { envHistOnly with ta := { taAllErr with adx := fun _ _ _ _ => .ok [] } }

/-- History present, and the four guarded multi-output transforms return
empty frames (all expected sub-series keys absent). -/
def envGuardedEmpty : Env :=
  { envHistOnly with ta :=
    { taAllErr with
        stoch := fun _ _ _ => .ok []
        macd := fun _ => .ok []
        bbands := fun _ => .ok []
        supertrend := fun _ _ _ => .ok [] } }

/-- History present, and `ta.rsi` returns a series with one NaN. -/
def envRsiOnly : Env :=
  { envHistOnly with ta :=
    { taAllErr with rsi := fun _ _ => .ok [some 1, none, some 2] } }

/-- Recommendations empty, insider transactions absent, everything else
raising. -/
def envEmptyDatasets : Env :=
  { envAllErr with
      recommendations := fun _ => .ok (some [])
      insider := fun _ => .ok none }

/-- History fetch succeeds with an empty series. -/
def envEmptyHist : Env :=
  { envAllErr with history := fun _ _ => .ok [] }

theorem probeHit_iff (info : InfoFun) (t : String) :
    probeHit info t = true ↔ candidateApplies info t := by
  unfold probeHit candidateApplies
  cases info t with
  | ok i =>
      cases h : i.lookup "regularMarketPrice" with
      | none => simp [pyGetNone, h, Value.isNull]
      | some v =>
          cases v <;> simp [pyGetNone, h, Value.isNull]
  | error e => simp

theorem strData_append (s t : String) : (s ++ t).data = s.data ++ t.data := by
  cases s; cases t; rfl

theorem strEndsWith_append (s t : String) : strEndsWith (s ++ t) t = true := by
  simp [strEndsWith, strData_append]

theorem suffixCheck_eq (s : String) :
    INDIAN_SUFFIXES.any (fun sfx => strEndsWith s sfx)
      = (strEndsWith s ".NS" || strEndsWith s ".BO") := by
  simp [INDIAN_SUFFIXES]

/-- Claim C1: `resolve_indian_symbol` returns the input unchanged, with no
metadata lookups, when it already ends with ".NS" or ".BO"; otherwise the
".NS" candidate when its lookup succeeds with a present non-null
`regularMarketPrice`; otherwise the ".BO" candidate under the same
condition; otherwise the input unchanged.  A lookup that raises counts as
the candidate not applying (`probeHit` is false on `.error`), and the
function is total, so it never raises to its caller. -/
theorem resolve_indian_symbol_spec (info : InfoFun) (s : String) :
    ((strEndsWith s ".NS" || strEndsWith s ".BO") = true →
      resolveRun info s = (s, []))
  ∧ ((strEndsWith s ".NS" || strEndsWith s ".BO") = false →
      candidateApplies info (s ++ ".NS") →
      resolve_indian_symbol info s = s ++ ".NS")
  ∧ ((strEndsWith s ".NS" || strEndsWith s ".BO") = false →
      ¬ candidateApplies info (s ++ ".NS") →
      candidateApplies info (s ++ ".BO") →
      resolve_indian_symbol info s = s ++ ".BO")
  ∧ ((strEndsWith s ".NS" || strEndsWith s ".BO") = false →
      ¬ candidateApplies info (s ++ ".NS") →
      ¬ candidateApplies info (s ++ ".BO") →
      resolve_indian_symbol info s = s) := by
  refine ⟨?_, ?_, ?_, ?_⟩
  · intro h
    simp [resolveRun, suffixCheck_eq, h]
  · intro h hNS
    have hp : probeHit info (s ++ ".NS") = true := (probeHit_iff _ _).mpr hNS
    simp [resolve_indian_symbol, resolveRun, suffixCheck_eq, h, hp]
  · intro h hNS hBO
    have hp1 : probeHit info (s ++ ".NS") = false := by
      cases hpb : probeHit info (s ++ ".NS") with
      | true => exact absurd ((probeHit_iff _ _).mp hpb) hNS
      | false => rfl
    have hp2 : probeHit info (s ++ ".BO") = true := (probeHit_iff _ _).mpr hBO
    simp [resolve_indian_symbol, resolveRun, suffixCheck_eq, h, hp1, hp2]
  · intro h hNS hBO
    have hp1 : probeHit info (s ++ ".NS") = false := by
      cases hpb : probeHit info (s ++ ".NS") with
      | true => exact absurd ((probeHit_iff _ _).mp hpb) hNS
      | false => rfl
    have hp2 : probeHit info (s ++ ".BO") = false := by
      cases hpb : probeHit info (s ++ ".BO") with
      | true => exact absurd ((probeHit_iff _ _).mp hpb) hBO
      | false => rfl
    simp [resolve_indian_symbol, resolveRun, suffixCheck_eq, h, hp1, hp2]

/-- Witness for C1: with a provider whose only live metadata is for
"RELIANCE.BO", the resolver maps "RELIANCE" to "RELIANCE.BO" (the ".NS"
probe raises and is swallowed). -/
theorem resolve_indian_symbol_spec_witness :
    resolve_indian_symbol
      (fun t => if t = "RELIANCE.BO"
        then .ok [("regularMarketPrice", vInt 3)] else .error ())
      "RELIANCE" = "RELIANCE.BO" := by
  have h := (resolve_indian_symbol_spec
    (fun t => if t = "RELIANCE.BO"
      then .ok [("regularMarketPrice", vInt 3)] else .error ())
    "RELIANCE").2.2.1
  exact h (by decide) (by decide) (by decide)

/-- Claim C9: the resolver is idempotent.  Every result either carries a
regional suffix or equals the input; every suffixed string is a fixed
point resolved with no metadata lookups; composing the resolver with
itself (over one fixed provider) changes nothing. -/
theorem resolve_indian_symbol_idem (info : InfoFun) (s : String) :
    ((strEndsWith (resolve_indian_symbol info s) ".NS"
        || strEndsWith (resolve_indian_symbol info s) ".BO") = true
      ∨ resolve_indian_symbol info s = s)
  ∧ (∀ r : String, (strEndsWith r ".NS" || strEndsWith r ".BO") = true →
      resolveRun info r = (r, []))
  ∧ resolve_indian_symbol info (resolve_indian_symbol info s)
      = resolve_indian_symbol info s := by
  have key : ∀ r : String, (strEndsWith r ".NS" || strEndsWith r ".BO") = true →
      resolveRun info r = (r, []) := by
    intro r h
    simp [resolveRun, suffixCheck_eq, h]
  have cases1 : (strEndsWith (resolve_indian_symbol info s) ".NS"
        || strEndsWith (resolve_indian_symbol info s) ".BO") = true
      ∨ resolve_indian_symbol info s = s := by
    cases hA : (strEndsWith s ".NS" || strEndsWith s ".BO") with
    | true =>
        right
        show (resolveRun info s).1 = s
        rw [key s hA]
    | false =>
        cases hN : probeHit info (s ++ ".NS") with
        | true =>
            left
            simp [resolve_indian_symbol, resolveRun, suffixCheck_eq, hA, hN,
              strEndsWith_append]
        | false =>
            cases hB : probeHit info (s ++ ".BO") with
            | true =>
                left
                simp [resolve_indian_symbol, resolveRun, suffixCheck_eq, hA, hN, hB,
                  strEndsWith_append]
            | false =>
                right
                simp [resolve_indian_symbol, resolveRun, suffixCheck_eq, hA, hN, hB]
  refine ⟨cases1, key, ?_⟩
  rcases cases1 with h | h
  · show (resolveRun info (resolve_indian_symbol info s)).1 = resolve_indian_symbol info s
    rw [key _ h]
  · rw [h]; exact h

/-- Witness for C9: idempotence at a concrete provider and symbol, and the
fixed-point conjunct discharged at the concrete suffixed symbol "X.NS". -/
theorem resolve_indian_symbol_idem_witness :
    resolve_indian_symbol (fun _ => .error ())
        (resolve_indian_symbol (fun _ => .error ()) "TCS")
      = resolve_indian_symbol (fun _ => .error ()) "TCS"
    ∧ resolveRun (fun _ => .error ()) "X.NS" = ("X.NS", []) := by
  refine ⟨(resolve_indian_symbol_idem (fun _ => .error ()) "TCS").2.2, ?_⟩
  exact (resolve_indian_symbol_idem (fun _ => .error ()) "TCS").2.1 "X.NS" (by decide)

theorem lookup_append (l1 l2 : Dict) (k : String) :
    (l1 ++ l2).lookup k = Option.or (l1.lookup k) (l2.lookup k) := by
  induction l1 with
  | nil => simp [Option.or]
  | cons q rest ih =>
      obtain ⟨a, b⟩ := q
      by_cases h : (k == a) = true
      · simp [List.lookup, h, Option.or]
      · simp [List.lookup, h, ih]

theorem searchKeywordRun_eq (info : InfoFun) (kw : String) :
    searchKeywordRun info kw
      = (specKeywordRecord info kw, specKeywordProbes info kw) := by
  simp only [searchKeywordRun, searchSuffixLoop, INDIAN_SUFFIXES,
    specKeywordRecord, specKeywordProbes]
  cases h1 : searchProbe info (kw ++ ".NS") with
  | some r => simp [h1]
  | none =>
    cases h2 : searchProbe info (kw ++ ".BO") with
    | some r => simp [h1, h2]
    | none => simp [h1, h2]

theorem searchFold_eq (info : InfoFun) (kws : List String)
    (acc : List Dict × List String) :
    kws.foldl (searchStep info) acc
      = (acc.1 ++ kws.filterMap (specKeywordRecord info),
         acc.2 ++ kws.flatMap (specKeywordProbes info)) := by
  induction kws generalizing acc with
  | nil => simp
  | cons kw rest ih =>
      rw [List.foldl_cons, ih]
      simp only [searchStep, searchKeywordRun_eq]
      cases h : specKeywordRecord info kw with
      | some r => simp [h, List.filterMap_cons, List.flatMap_cons]
      | none => simp [h, List.filterMap_cons, List.flatMap_cons]

/-- Claim C7: search_symbol splits the keywords on whitespace and, per
keyword in order, records the first regional variant (".NS" then ".BO")
whose metadata yields a resolvable (truthy) company name, probing ".BO"
only when ".NS" did not resolve and the bare keyword only when neither
regional variant did; the results sequence holds exactly the resolved
records in keyword input order, and unresolved keywords are omitted with
no error. -/
theorem search_symbol_spec (info : InfoFun) (keywords : String) :
    searchRun info keywords
      = ([("results",
            vList (((pySplit keywords).filterMap (specKeywordRecord info)).map vObj))],
         (pySplit keywords).flatMap (specKeywordProbes info)) := by
  simp [searchRun, searchFold_eq]

/-- Counterexample to claim C2 as stated: with a provider whose every call
raises, all three probes for the keyword "TCS" raise, yet search_symbol
returns a normal results response that has no error key at all — the
exceptions are swallowed per candidate, not converted to a response
containing only an error key. -/
theorem search_symbol_swallows_counterexample :
    envAllErr.info "TCS.NS" = .error ()
  ∧ envAllErr.info "TCS.BO" = .error ()
  ∧ envAllErr.info "TCS" = .error ()
  ∧ search_symbol envAllErr.info "TCS" = [("results", vList [])]
  ∧ (search_symbol envAllErr.info "TCS").lookup "error" = none :=
  ⟨rfl, rfl, rfl, rfl, rfl⟩

/-- Claim C2 amended: for the five symbol-based adapters (quote, overview,
time series, recommendations, insider transactions) any exception inside
the try body — the provider call or the reshaping — yields the single-key
error response; search_symbol instead swallows per-candidate probe
exceptions and always returns a normal results response.  Every adapter is
a total function into Dict, so none raises to the transport layer. -/
theorem adapters_catch_exceptions (env : Env) (symbol keywords outputsize : String) :
    (get_stock_quote_body env (resolve_indian_symbol env.info symbol) = .error () →
      get_stock_quote env symbol
        = [("error", vStr ("Failed to fetch quote for "
            ++ resolve_indian_symbol env.info symbol))])
  ∧ (get_company_overview_body env (resolve_indian_symbol env.info symbol) = .error () →
      get_company_overview env symbol
        = [("error", vStr ("Failed to fetch company overview for "
            ++ resolve_indian_symbol env.info symbol))])
  ∧ (get_time_series_daily_body env (resolve_indian_symbol env.info symbol) outputsize
        = .error () →
      get_time_series_daily env symbol outputsize
        = [("error", vStr ("Failed to fetch time series for "
            ++ resolve_indian_symbol env.info symbol))])
  ∧ (get_recommendations_body env (resolve_indian_symbol env.info symbol) = .error () →
      get_recommendations env symbol
        = [("error", vStr ("Failed to fetch recommendations for "
            ++ resolve_indian_symbol env.info symbol))])
  ∧ (get_insider_transactions_body env (resolve_indian_symbol env.info symbol)
        = .error () →
      get_insider_transactions env symbol
        = [("error", vStr ("Failed to fetch insider transactions for "
            ++ resolve_indian_symbol env.info symbol))])
  ∧ (∃ rs : List Dict, search_symbol env.info keywords
        = [("results", vList (rs.map vObj))]) := by
  refine ⟨?_, ?_, ?_, ?_, ?_, ?_⟩
  · intro h; simp [get_stock_quote, h]
  · intro h; simp [get_company_overview, h]
  · intro h; simp [get_time_series_daily, h]
  · intro h; simp [get_recommendations, h]
  · intro h; simp [get_insider_transactions, h]
  · exact ⟨((pySplit keywords).foldl (searchStep env.info) ([], [])).1, rfl⟩

/-- Witness for the amended C2: with an always-raising provider, the five
symbol adapters return their single-key error responses and search returns
a results response. -/
theorem adapters_catch_exceptions_witness :
    get_stock_quote envAllErr "AAPL"
      = [("error", vStr "Failed to fetch quote for AAPL")]
  ∧ get_company_overview envAllErr "AAPL"
      = [("error", vStr "Failed to fetch company overview for AAPL")]
  ∧ get_time_series_daily envAllErr "AAPL" "compact"
      = [("error", vStr "Failed to fetch time series for AAPL")]
  ∧ get_recommendations envAllErr "AAPL"
      = [("error", vStr "Failed to fetch recommendations for AAPL")]
  ∧ get_insider_transactions envAllErr "AAPL"
      = [("error", vStr "Failed to fetch insider transactions for AAPL")]
  ∧ ∃ rs : List Dict, search_symbol envAllErr.info "MSFT"
      = [("results", vList (rs.map vObj))] := by
  obtain ⟨h1, h2, h3, h4, h5, h6⟩ :=
    adapters_catch_exceptions envAllErr "AAPL" "MSFT" "compact"
  exact ⟨h1 rfl, h2 rfl, h3 rfl, h4 rfl, h5 rfl, h6⟩

/-- Claim C8: an absent (`None`) or empty recommendations or insider
dataset yields the documented key bound to an empty sequence, with no
error key in the response. -/
theorem empty_datasets_not_error (env : Env) (s : String) :
    ((env.recommendations (resolve_indian_symbol env.info s) = .ok none ∨
      env.recommendations (resolve_indian_symbol env.info s) = .ok (some [])) →
      get_recommendations env s
        = [("symbol", vStr (resolve_indian_symbol env.info s)),
           ("recommendations", vList [])])
  ∧ ((env.insider (resolve_indian_symbol env.info s) = .ok none ∨
      env.insider (resolve_indian_symbol env.info s) = .ok (some [])) →
      get_insider_transactions env s
        = [("symbol", vStr (resolve_indian_symbol env.info s)),
           ("transactions", vList [])]) := by
  constructor
  · intro h
    have hb : get_recommendations_body env (resolve_indian_symbol env.info s)
        = .ok [("symbol", vStr (resolve_indian_symbol env.info s)),
               ("recommendations", vList [])] := by
      rcases h with h | h <;> (unfold get_recommendations_body; rw [h]) <;> rfl
    simp [get_recommendations, hb]
  · intro h
    have hb : get_insider_transactions_body env (resolve_indian_symbol env.info s)
        = .ok [("symbol", vStr (resolve_indian_symbol env.info s)),
               ("transactions", vList [])] := by
      rcases h with h | h <;> (unfold get_insider_transactions_body; rw [h]) <;> rfl
    simp [get_insider_transactions, hb]

/-- Witness for C8: a provider with an empty recommendations frame and an
absent insider table. -/
theorem empty_datasets_not_error_witness :
    get_recommendations envEmptyDatasets "AAPL"
      = [("symbol", vStr "AAPL"), ("recommendations", vList [])]
  ∧ get_insider_transactions envEmptyDatasets "AAPL"
      = [("symbol", vStr "AAPL"), ("transactions", vList [])] :=
  ⟨(empty_datasets_not_error envEmptyDatasets "AAPL").1 (Or.inr rfl),
   (empty_datasets_not_error envEmptyDatasets "AAPL").2 (Or.inl rfl)⟩

theorem gti_eval (env : Env) (s p : String) (ind : Option (List String))
    (hist : List HRow)
    (hh : env.history (resolve_indian_symbol env.info s) p = .ok hist)
    (hne : hist ≠ []) :
    get_technical_indicators env s p ind
      = runSteps (match ind with | none => default_indicators | some l => l)
          (indicatorSteps env.ta (hist.map (·.close)) (hist.map (·.high))
            (hist.map (·.low)) (hist.map (·.volume))) [] := by
  have he : hist.isEmpty = false := by
    cases hist with
    | nil => exact absurd rfl hne
    | cons a t => rfl
  simp [get_technical_indicators, hh, he]

theorem map_ok_no_error {α : Type} (x : Except Unit α) (f : α → Dict)
    (hf : ∀ a, (f a).lookup "error" = none) (es : Dict)
    (hes : x.map f = .ok es) : es.lookup "error" = none := by
  cases x with
  | ok a =>
      simp [Except.map] at hes
      rw [← hes]
      exact hf a
  | error e => simp [Except.map] at hes

theorem bindMap_ok_no_error (x : Except Unit DataFrame) (k : String)
    (f : Series → Dict) (hf : ∀ s, (f s).lookup "error" = none) (es : Dict)
    (hes : (x.bind fun df => (dfColE df k).map f) = .ok es) :
    es.lookup "error" = none := by
  cases x with
  | ok df =>
      simp [Except.bind] at hes
      exact map_ok_no_error _ f hf es hes
  | error e => simp [Except.bind] at hes

theorem indicatorSteps_no_error (ta : TaEnv) (c h l v : Series) :
    ∀ q ∈ indicatorSteps ta c h l v, ∀ es : Dict, q.2 = .ok es →
      es.lookup "error" = none := by
  intro q hq
  simp only [indicatorSteps, List.mem_cons, List.not_mem_nil, or_false] at hq
  rcases hq with h1|h1|h1|h1|h1|h1|h1|h1|h1|h1|h1|h1|h1|h1|h1|h1|h1
  · subst h1
    exact fun es hes => map_ok_no_error (ta.sma 20 c)
      (fun s => [("sma_20", dropnaToList s)]) (fun a => rfl) es hes
  · subst h1
    exact fun es hes => map_ok_no_error (ta.ema 20 c)
      (fun s => [("ema_20", dropnaToList s)]) (fun a => rfl) es hes
  · subst h1
    exact fun es hes => map_ok_no_error (ta.wma 20 c)
      (fun s => [("wma_20", dropnaToList s)]) (fun a => rfl) es hes
  · subst h1
    exact fun es hes => map_ok_no_error (ta.hma 20 c)
      (fun s => [("hma_20", dropnaToList s)]) (fun a => rfl) es hes
  · subst h1
    exact fun es hes => map_ok_no_error (ta.rsi 14 c)
      (fun s => [("rsi_14", dropnaToList s)]) (fun a => rfl) es hes
  · subst h1
    exact fun es hes => map_ok_no_error (ta.stoch h l c)
      (fun df => [("stoch_k", dfCol df "STOCHk_14_3_3"),
                  ("stoch_d", dfCol df "STOCHd_14_3_3")]) (fun a => rfl) es hes
  · subst h1
    exact fun es hes => map_ok_no_error (ta.macd c)
      (fun df => [("macd", dfCol df "MACD_12_26_9"),
                  ("macd_signal", dfCol df "MACDs_12_26_9"),
                  ("macd_hist", dfCol df "MACDh_12_26_9")]) (fun a => rfl) es hes
  · subst h1
    exact fun es hes => map_ok_no_error (ta.roc 10 c)
      (fun s => [("roc_10", dropnaToList s)]) (fun a => rfl) es hes
  · subst h1
    exact fun es hes => map_ok_no_error (ta.willr 14 h l c)
      (fun s => [("willr_14", dropnaToList s)]) (fun a => rfl) es hes
  · subst h1
    exact fun es hes => map_ok_no_error (ta.bbands c)
      (fun df => [("bbands_upper", dfCol df "BBU_20_2.0"),
                  ("bbands_middle", dfCol df "BBM_20_2.0"),
                  ("bbands_lower", dfCol df "BBL_20_2.0")]) (fun a => rfl) es hes
  · subst h1
    exact fun es hes => map_ok_no_error (ta.atr 14 h l c)
      (fun s => [("atr_14", dropnaToList s)]) (fun a => rfl) es hes
  · subst h1
    exact fun es hes => bindMap_ok_no_error (ta.adx 14 h l c) "ADX_14"
      (fun s => [("adx_14", dropnaToList s)]) (fun a => rfl) es hes
  · subst h1
    exact fun es hes => map_ok_no_error (ta.obv c v)
      (fun s => [("obv", dropnaToList s)]) (fun a => rfl) es hes
  · subst h1
    exact fun es hes => map_ok_no_error (ta.cmf 20 h l c v)
      (fun s => [("cmf_20", dropnaToList s)]) (fun a => rfl) es hes
  · subst h1
    exact fun es hes => map_ok_no_error (ta.mfi 14 h l c v)
      (fun s => [("mfi_14", dropnaToList s)]) (fun a => rfl) es hes
  · subst h1
    exact fun es hes => map_ok_no_error (ta.supertrend h l c)
      (fun df => [("supertrend", dfCol df "SUPERT_7_3.0")]) (fun a => rfl) es hes
  · subst h1
    exact fun es hes => map_ok_no_error (ta.cci 20 h l c)
      (fun s => [("cci_20", dropnaToList s)]) (fun a => rfl) es hes

theorem runSteps_lookup_error (ind : List String)
    (steps : List (String × Except Unit Dict)) :
    ∀ acc d : Dict,
      (∀ q ∈ steps, ∀ es : Dict, q.2 = .ok es → es.lookup "error" = none) →
      runSteps ind steps acc = .ok d →
      d.lookup "error" = acc.lookup "error" := by
  induction steps with
  | nil =>
      intro acc d _ h
      simp [runSteps] at h
      subst h
      rfl
  | cons q rest ih =>
      obtain ⟨name, comp⟩ := q
      intro acc d hsteps h
      simp only [runSteps] at h
      by_cases hc : ind.contains name = true
      · rw [if_pos hc] at h
        cases hcomp : comp with
        | ok es =>
            rw [hcomp] at h
            have h1 := ih (acc ++ es) d
              (fun q hq => hsteps q (List.mem_cons_of_mem _ hq)) h
            have h2 : es.lookup "error" = none :=
              hsteps ⟨name, comp⟩ (List.mem_cons_self _ _) es hcomp
            rw [h1, lookup_append, h2]
            cases acc.lookup "error" <;> rfl
        | error e =>
            rw [hcomp] at h
            cases h
      · rw [if_neg hc] at h
        exact ih acc d (fun q hq => hsteps q (List.mem_cons_of_mem _ hq)) h

/-- Claim C6: an empty fetched history yields exactly the error response
"No historical data for" plus the resolved symbol (as a normally returned
dict), and this is the only way a returned dict of the operation carries
an error key. -/
theorem gti_no_history_error (env : Env) (s p : String)
    (ind : Option (List String)) :
    (env.history (resolve_indian_symbol env.info s) p = .ok [] →
      get_technical_indicators env s p ind
        = .ok [("error", vStr ("No historical data for "
            ++ resolve_indian_symbol env.info s))])
  ∧ (∀ d : Dict, get_technical_indicators env s p ind = .ok d →
      (d.lookup "error").isSome = true →
      env.history (resolve_indian_symbol env.info s) p = .ok [] ∧
        d = [("error", vStr ("No historical data for "
            ++ resolve_indian_symbol env.info s))]) := by
  constructor
  · intro h
    simp [get_technical_indicators, h]
  · intro d hd herr
    simp only [get_technical_indicators] at hd
    cases hh : env.history (resolve_indian_symbol env.info s) p with
    | error e =>
        rw [hh] at hd
        cases hd
    | ok hist =>
        rw [hh] at hd
        cases hist with
        | nil =>
            simp at hd
            exact ⟨rfl, hd.symm⟩
        | cons r rest =>
            simp at hd
            have hnone := runSteps_lookup_error _ _ [] d
              (indicatorSteps_no_error env.ta _ _ _ _) hd
            rw [hnone] at herr
            cases herr

/-- Witness for C6: a provider whose history fetch returns an empty
series. -/
theorem gti_no_history_error_witness :
    get_technical_indicators envEmptyHist "AAPL" "3mo" none
      = .ok [("error", vStr "No historical data for AAPL")] :=
  (gti_no_history_error envEmptyHist "AAPL" "3mo" none).1 rfl

/-- Counterexample to claim C3 as stated: get_technical_indicators has no
try/except, so with a provider whose history fetch raises, the call raises
to the transport layer (modelled as `.error ()`) instead of returning an
error-keyed response. -/
theorem gti_history_failure_counterexample :
    get_technical_indicators envAllErr "AAPL" "3mo" none = .error () := rfl

/-- Claim C3 amended: failures of the external calls inside
get_technical_indicators are not caught: a raising historical-series fetch
propagates, and a raising per-indicator computation (here sma, selected
alone) propagates as well.  Only the empty-history check produces an
error-shaped response. -/
theorem gti_failures_propagate (env : Env) (s p : String) :
    (∀ ind : Option (List String),
      env.history (resolve_indian_symbol env.info s) p = .error () →
      get_technical_indicators env s p ind = .error ())
  ∧ (∀ hist : List HRow,
      env.history (resolve_indian_symbol env.info s) p = .ok hist → hist ≠ [] →
      env.ta.sma 20 (hist.map (·.close)) = .error () →
      get_technical_indicators env s p (some ["sma"]) = .error ()) := by
  constructor
  · intro ind h
    simp [get_technical_indicators, h]
  · intro hist hh hne hsma
    rw [gti_eval env s p _ hist hh hne]
    simp only [indicatorSteps]
    rw [hsma]
    rfl

/-- Witness for the amended C3: concrete providers on which the history
fetch raises, respectively the sma transform raises. -/
theorem gti_failures_propagate_witness :
    get_technical_indicators envAllErr "MSFT" "3mo" none = .error ()
  ∧ get_technical_indicators envHistOnly "MSFT" "3mo" (some ["sma"]) = .error () :=
  ⟨(gti_failures_propagate envAllErr "MSFT" "3mo").1 none rfl,
   (gti_failures_propagate envHistOnly "MSFT" "3mo").2 [sampleRow] rfl
     (by decide) rfl⟩

/-- Counterexample to claim C4 as stated: adx is a multi-output transform
(and is cited by the claim at src/main.py lines 334-335), but its
sub-series access is unguarded; when the key "ADX_14" is absent from its
result the call raises (KeyError) instead of binding an empty sequence and
returning a success mapping. -/
theorem gti_adx_missing_counterexample :
    get_technical_indicators envAdxMissing "AAPL" "3mo" (some ["adx"])
      = .error () := rfl

/-- Claim C4 amended: for the guarded multi-output transforms — stoch,
macd, bbands and supertrend — every expected sub-series key absent from
the transform result is bound to an empty sequence and the call still
returns a success mapping; the adx sub-series access is unguarded and is
not covered by this behavior. -/
theorem gti_guarded_missing_keys (env : Env) (s p : String) (hist : List HRow)
    (dfS dfM dfB dfT : DataFrame)
    (hh : env.history (resolve_indian_symbol env.info s) p = .ok hist)
    (hne : hist ≠ [])
    (hS : env.ta.stoch (hist.map (·.high)) (hist.map (·.low))
            (hist.map (·.close)) = .ok dfS)
    (hM : env.ta.macd (hist.map (·.close)) = .ok dfM)
    (hB : env.ta.bbands (hist.map (·.close)) = .ok dfB)
    (hT : env.ta.supertrend (hist.map (·.high)) (hist.map (·.low))
            (hist.map (·.close)) = .ok dfT)
    (hk1 : dfS.lookup "STOCHk_14_3_3" = none)
    (hk2 : dfS.lookup "STOCHd_14_3_3" = none)
    (hk3 : dfM.lookup "MACD_12_26_9" = none)
    (hk4 : dfM.lookup "MACDs_12_26_9" = none)
    (hk5 : dfM.lookup "MACDh_12_26_9" = none)
    (hk6 : dfB.lookup "BBU_20_2.0" = none)
    (hk7 : dfB.lookup "BBM_20_2.0" = none)
    (hk8 : dfB.lookup "BBL_20_2.0" = none)
    (hk9 : dfT.lookup "SUPERT_7_3.0" = none) :
    get_technical_indicators env s p (some ["stoch", "macd", "bbands", "supertrend"])
      = .ok [("stoch_k", vList []), ("stoch_d", vList []),
             ("macd", vList []), ("macd_signal", vList []), ("macd_hist", vList []),
             ("bbands_upper", vList []), ("bbands_middle", vList []),
             ("bbands_lower", vList []),
             ("supertrend", vList [])] := by
  rw [gti_eval env s p _ hist hh hne]
  simp only [indicatorSteps]
  rw [hS, hM, hB, hT]
  simp only [Except.map, dfCol]
  rw [hk1, hk2, hk3, hk4, hk5, hk6, hk7, hk8, hk9]
  rfl

/-- Witness for the amended C4: a provider whose four guarded multi-output
transforms return empty frames; all nine output keys come back as empty
sequences and the call succeeds. -/
theorem gti_guarded_missing_keys_witness :
    get_technical_indicators envGuardedEmpty "AAPL" "3mo"
        (some ["stoch", "macd", "bbands", "supertrend"])
      = .ok [("stoch_k", vList []), ("stoch_d", vList []),
             ("macd", vList []), ("macd_signal", vList []), ("macd_hist", vList []),
             ("bbands_upper", vList []), ("bbands_middle", vList []),
             ("bbands_lower", vList []),
             ("supertrend", vList [])] :=
  gti_guarded_missing_keys envGuardedEmpty "AAPL" "3mo" [sampleRow] [] [] [] []
    rfl (by decide) rfl rfl rfl rfl rfl rfl rfl rfl rfl rfl rfl rfl rfl

theorem contains_filter_of_mem (K ind : List String) (n : String)
    (hn : K.contains n = true) :
    (ind.filter (fun x => K.contains x)).contains n = ind.contains n := by
  induction ind with
  | nil => rfl
  | cons a rest ih =>
      rw [List.filter_cons]
      by_cases ha : K.contains a = true
      · rw [if_pos ha, List.contains_cons, List.contains_cons, ih]
      · have ha' : K.contains a = false := by
          cases hx : K.contains a with
          | true => exact absurd hx ha
          | false => rfl
        have hne : (n == a) = false := by
          cases hx : n == a with
          | true =>
              have heq : n = a := eq_of_beq hx
              rw [heq] at hn
              rw [hn] at ha'
              cases ha'
          | false => rfl
        rw [if_neg (by rw [ha']; exact Bool.false_ne_true),
          List.contains_cons, ih, hne, Bool.false_or]

theorem runSteps_congr (ind ind' : List String)
    (steps : List (String × Except Unit Dict))
    (h : ∀ q ∈ steps, ind.contains q.1 = ind'.contains q.1) :
    ∀ acc : Dict, runSteps ind steps acc = runSteps ind' steps acc := by
  induction steps with
  | nil => intro acc; rfl
  | cons q rest ih =>
      obtain ⟨name, comp⟩ := q
      intro acc
      have hname : ind.contains name = ind'.contains name :=
        h ⟨name, comp⟩ (List.mem_cons_self _ _)
      have hrest : ∀ q ∈ rest, ind.contains q.1 = ind'.contains q.1 :=
        fun q hq => h q (List.mem_cons_of_mem _ hq)
      simp only [runSteps]
      rw [hname]
      by_cases hc : ind'.contains name = true
      · rw [if_pos hc, if_pos hc]
        cases comp with
        | ok es => exact ih hrest (acc ++ es)
        | error e => rfl
      · rw [if_neg hc, if_neg hc]
        exact ih hrest acc

theorem indicatorSteps_names (ta : TaEnv) (c h l v : Series) :
    ∀ q ∈ indicatorSteps ta c h l v, default_indicators.contains q.1 = true := by
  intro q hq
  simp only [indicatorSteps, List.mem_cons, List.not_mem_nil, or_false] at hq
  rcases hq with h1|h1|h1|h1|h1|h1|h1|h1|h1|h1|h1|h1|h1|h1|h1|h1|h1 <;>
    subst h1 <;> rfl

/-- Claim C5: with no indicators argument the default is the fixed set of
17 names; names outside the recognized set contribute no output keys and
no error (filtering the argument down to the recognized names changes
nothing); and selecting only rsi yields a mapping whose only key is
rsi_14. -/
theorem gti_indicator_selection (env : Env) (s p : String) :
    (get_technical_indicators env s p none
      = get_technical_indicators env s p
          (some ["sma", "ema", "wma", "hma", "rsi", "stoch", "macd", "bbands",
                 "adx", "atr", "cci", "roc", "willr", "obv", "cmf", "mfi",
                 "supertrend"]))
  ∧ (∀ ind : List String,
      get_technical_indicators env s p (some ind)
        = get_technical_indicators env s p
            (some (ind.filter (fun n => default_indicators.contains n))))
  ∧ (∀ hist : List HRow, ∀ ser : Series,
      env.history (resolve_indian_symbol env.info s) p = .ok hist → hist ≠ [] →
      env.ta.rsi 14 (hist.map (·.close)) = .ok ser →
      get_technical_indicators env s p (some ["rsi"])
        = .ok [("rsi_14", dropnaToList ser)]) := by
  refine ⟨rfl, ?_, ?_⟩
  · intro ind
    simp only [get_technical_indicators]
    cases hh : env.history (resolve_indian_symbol env.info s) p with
    | error e => rfl
    | ok hist =>
        by_cases he : hist.isEmpty = true
        · simp [he]
        · simp only [he, if_false]
          exact runSteps_congr ind (ind.filter (fun n => default_indicators.contains n))
            _ (fun q hq => (contains_filter_of_mem default_indicators ind q.1
                (indicatorSteps_names env.ta _ _ _ _ q hq)).symm) []
  · intro hist ser hh hne hrsi
    rw [gti_eval env s p _ hist hh hne]
    simp only [indicatorSteps]
    rw [hrsi]
    rfl

/-- Witness for C5: a provider whose rsi transform returns a three-sample
series with one NaN; the call returns exactly the rsi_14 key. -/
theorem gti_indicator_selection_witness :
    get_technical_indicators envRsiOnly "AAPL" "3mo" (some ["rsi"])
      = .ok [("rsi_14", vList [vInt 1, vInt 2])] :=
  (gti_indicator_selection envRsiOnly "AAPL" "3mo").2.2 [sampleRow]
    [some 1, none, some 2] rfl (by decide) rfl

/-- Claim C10: an explicitly empty indicator list yields the empty mapping
(no keys, no error), unlike the absent argument which triggers the default
set — shown at a concrete provider where the default set makes the call
raise while the empty list returns the empty mapping. -/
theorem gti_empty_list_vs_default (env : Env) (s p : String) :
    (∀ hist : List HRow,
      env.history (resolve_indian_symbol env.info s) p = .ok hist → hist ≠ [] →
      get_technical_indicators env s p (some []) = .ok [])
  ∧ get_technical_indicators envHistOnly "AAPL" "3mo" (some []) = .ok []
  ∧ get_technical_indicators envHistOnly "AAPL" "3mo" none = .error () := by
  refine ⟨?_, rfl, rfl⟩
  intro hist hh hne
  rw [gti_eval env s p _ hist hh hne]
  rfl

/-- Witness for C10 at a concrete provider. -/
theorem gti_empty_list_vs_default_witness :
    get_technical_indicators envHistOnly "GOOG" "1y" (some []) = .ok [] :=
  (gti_empty_list_vs_default envHistOnly "GOOG" "1y").1 [sampleRow] rfl (by decide)
